import Mathlib

/-!
Verification development for the `timedflock` repository (canonical second
generation, `timedflock2.py`): a file lock built on `fcntl.flock` where a
spawned Holder subprocess holds the OS advisory lock on behalf of the
Requester (`TimedFileLock`).

Modelling conventions:
* Python floats appearing in the code (the `timeout` value) are modelled as
  rationals `ℚ`; the code only compares them with `0`, which is exact.
* The byte line `b'locked\n'` and the token `b'quit'` are modelled as Lean
  strings.
* External effects (spawning, reading the pipe, `fcntl.flock`) are modelled
  by an explicit environment value describing what the outside world did,
  and by traces of the actions the code performs, in program order.
* Python exceptions are modelled with `Except`: a function that can raise
  returns `Except PyError α`.
-/

/-- A Python exception, as far as the embedded code distinguishes them. -/
inductive PyError where
  | valueError
  | pyExc (msg : String)
deriving DecidableEq, Repr

/-- A Python value, as far as `bool(...)` coercion in the constructor needs:
`bool(shared)` is truthiness. -/
inductive PyVal where
  | pynone
  | pybool (b : Bool)
  | pyint (n : ℤ)
  | pystr (s : String)
deriving DecidableEq, Repr

/-- Python truthiness, the semantics of `bool(x)`. -/
def PyVal.truthy : PyVal → Bool
  | .pynone => false
  | .pybool b => b
  | .pyint n => decide (n ≠ 0)
  | .pystr s => decide (s ≠ "")

/-- A path is absolute when it starts with a slash (POSIX). -/
def isAbsolute (p : String) : Bool :=
  match p.data with
  | c :: _ => decide (c = '/')
  | [] => false

/-- Models the library call `os.path.abspath` used at `timedflock2.py:84`:
an absolute path is returned unchanged, a relative one is joined to the
current working directory. (Path normalisation is dropped; it does not
affect absoluteness.) -/
def os_path_abspath (cwd p : String) : String :=
  if isAbsolute p then p else cwd ++ "/" ++ p

/-- The `_config` dict built by `TimedFileLock.__init__`
(`timedflock2.py:83-87`): absolute lockfile path, `bool(shared)`, and the
validated timeout. -/
structure Config where
  lockfile : String
  shared : Bool
  timeout : Option ℚ
deriving DecidableEq, Repr

/-- `TimedFileLock.__init__` (`timedflock2.py:56-95`): if `timeout` is not
`None` it is converted to a float and rejected with `ValueError` when
negative; then the immutable `_config` is stored. (The diagnostic `tag` is
not modelled: it is pure observability.) -/
def TimedFileLock.init (cwd lockfile : String) (shared : PyVal)
    (timeout : Option ℚ) : Except PyError Config :=
  match timeout with
  | some t =>
      if t < 0 then .error .valueError
      else .ok { lockfile := os_path_abspath cwd lockfile,
                 shared := shared.truthy, timeout := some t }
  | none => .ok { lockfile := os_path_abspath cwd lockfile,
                  shared := shared.truthy, timeout := none }

/-- The Requester-side object: its `_config` and `_subproc` fields.
`_subproc` is the HolderHandle; `some ()` models a stored `Popen` object. -/
structure TimedFileLock where
  config : Config
  subproc : Option Unit
deriving DecidableEq, Repr

/-- `TimedFileLock.locked` (`timedflock2.py:135-137`): purely
`self._subproc is not None` — no filesystem access, no liveness poll. -/
def TimedFileLock.locked (l : TimedFileLock) : Bool :=
  l.subproc.isSome

/-- The sentinel line the Holder writes on success (`b'locked\n'`). -/
def sentinel : String := "locked\n"

/-- What the outside world does during `_try_lock`
(`timedflock2.py:105-126`):
* `spawnRaises e` — `Popen` itself raises, so `proc` is still `None`;
* `readRaises e alive` — `Popen` succeeds but `proc.stdout.readline()`
  raises; `alive` records whether `proc.poll() is None` when the bare
  `except:` handler runs;
* `readLine line` — `readline` returns `line`. -/
inductive HandshakeEnv where
  | spawnRaises (e : String)
  | readRaises (e : String) (alive : Bool)
  | readLine (line : String)
deriving DecidableEq, Repr

/-- True when `Popen` did not raise, i.e. a child process was started. -/
def HandshakeEnv.spawnOk : HandshakeEnv → Bool
  | .spawnRaises _ => false
  | .readRaises _ _ => true
  | .readLine _ => true

/-- Observable actions of the Requester during `_try_lock`. -/
inductive ReqAction where
  | spawn
  | readLine
  | waitChild
  | kill
deriving DecidableEq, Repr

/-- The body of the `try:` block of `_try_lock` (`timedflock2.py:110-118`):
spawn the Holder, read one line from its stdout; if the line is not the
sentinel, `proc.wait()` and drop the handle. An error carries the actions
performed before the raise. -/
def tryLockBody (env : HandshakeEnv) :
    Except (PyError × List ReqAction) (Option Unit × List ReqAction) :=
  match env with
  | .spawnRaises e => .error (.pyExc e, [ReqAction.spawn])
  | .readRaises e _ => .error (.pyExc e, [ReqAction.spawn, ReqAction.readLine])
  | .readLine line =>
      if line = sentinel then
        .ok (some (), [ReqAction.spawn, ReqAction.readLine])
      else
        .ok (none, [ReqAction.spawn, ReqAction.readLine, ReqAction.waitChild])

/-- `TimedFileLock._try_lock` (`timedflock2.py:105-126`): the `try:` body
wrapped in the bare `except:` handler, which kills the child only when one
exists and is still alive (`proc is not None and proc.poll() is None`), and
always clears `proc`. Returns the new `_subproc` value and the action
trace; never raises, because the bare `except:` swallows everything. -/
def tryLock (env : HandshakeEnv) :
    Except PyError (Option Unit × List ReqAction) :=
  match tryLockBody env with
  | .ok r => .ok r
  | .error (_, acts) =>
      match env with
      | .spawnRaises _ => .ok (none, acts)
      | .readRaises _ alive =>
          .ok (none, acts ++ (if alive then [ReqAction.kill] else []))
      | .readLine _ => .ok (none, acts)

/-- `TimedFileLock.__enter__` (`timedflock2.py:97-99`): run `_try_lock`
(propagating any exception it would raise — there is none) and return
`self`. The result pair is (updated object, returned object); the source
returns the very same object it updated. -/
def TimedFileLock.enter (l : TimedFileLock) (env : HandshakeEnv) :
    Except PyError (TimedFileLock × TimedFileLock) :=
  match tryLock env with
  | .ok (p, _) => .ok ({ l with subproc := p }, { l with subproc := p })
  | .error e => .error e

/-- Observable actions of the Requester during `_unlock`. -/
inductive RelAction where
  | writeStdin (data : String)
  | closeStdin
  | waitExit
deriving DecidableEq, Repr

/-- Models the library call `Popen.communicate(input)` used at
`timedflock2.py:130`: write `input` to the child's stdin, close stdin, and
wait for the child process to terminate. -/
def communicate (input : String) : List RelAction :=
  [RelAction.writeStdin input, RelAction.closeStdin, RelAction.waitExit]

/-- `TimedFileLock._unlock` (`timedflock2.py:128-133`): if
`self._subproc is not None and self._subproc.poll() is None` (short-circuit
keeps the attribute access off `None`), call `communicate(b'quit')`; in
every case set `self._subproc = None`. `alive` is the environment's answer
to `poll() is None`. Never raises. -/
def TimedFileLock.unlock (l : TimedFileLock) (alive : Bool) :
    Except PyError (TimedFileLock × List RelAction) :=
  if l.subproc.isSome && alive then
    .ok ({ l with subproc := none }, communicate "quit")
  else
    .ok ({ l with subproc := none }, [])

/-- One Requester-side operation on a `TimedFileLock`, with the
environment's contribution: an acquisition attempt (`_try_lock` under a
given handshake environment) or a release (`_unlock` with the child's
aliveness). -/
inductive Event where
  | acquire (env : HandshakeEnv)
  | release (alive : Bool)
deriving DecidableEq, Repr

/-- State transition of the Requester object under one event, following
the source: `_try_lock` overwrites `_subproc` with its result, `_unlock`
clears it. -/
def stepLock (l : TimedFileLock) (e : Event) : TimedFileLock :=
  match e with
  | .acquire env =>
      match tryLock env with
      | .ok (p, _) => { l with subproc := p }
      | .error _ => l
  | .release alive =>
      match l.unlock alive with
      | .ok (l2, _) => l2
      | .error _ => l

/-- Run a sequence of acquire/release operations from a given state. -/
def runEvents (l : TimedFileLock) (es : List Event) : TimedFileLock :=
  es.foldl stepLock l

/-- Spec-side characterisation (from the spec's words, for claim C1): after
an event sequence the lock is held exactly when the last event is an
acquisition whose handshake read exactly the sentinel line. -/
def specHeldStep (_ : Bool) (e : Event) : Bool :=
  match e with
  | .acquire (.readLine line) => decide (line = sentinel)
  | _ => false

/-- Spec-side "held" predicate over a whole event sequence. -/
def specHeld (es : List Event) : Bool :=
  es.foldl specHeldStep false

/-- `fcntl.LOCK_SH` on Linux. -/
def LOCK_SH : Nat := 1

/-- `fcntl.LOCK_EX` on Linux. -/
def LOCK_EX : Nat := 2

/-- `fcntl.LOCK_NB` on Linux. -/
def LOCK_NB : Nat := 4

/-- One `signal.setitimer(signal.ITIMER_REAL, delay, interval)` call:
the timer first fires after `delay` seconds and then refires every
`interval` seconds; `delay = 0` disarms it. -/
structure TimerCall where
  delay : ℚ
  interval : ℚ
deriving DecidableEq, Repr

/-- A timer call arms a one-shot timer exactly when its repeat interval is
zero: otherwise the timer refires periodically until disarmed. -/
def TimerCall.oneShot (c : TimerCall) : Prop :=
  c.interval = 0

/-- The timer-arming decision of the Holder (`timedflock2.py:175-180`):
`signal.setitimer(signal.ITIMER_REAL, timeout, 1)` when the configured
timeout is not `None` and positive; otherwise no arm call. -/
def armTimer : Option ℚ → Option TimerCall
  | none => none
  | some t => if 0 < t then some ⟨t, 1⟩ else none

/-- The flock operation word of the Holder (`timedflock2.py:173-180`):
`LOCK_SH` when `config['shared']` else `LOCK_EX`, with `LOCK_NB` or-ed in
when the timeout is not `None` and not positive. -/
def holderLockOp (cfg : Config) : Nat :=
  let base := if cfg.shared then LOCK_SH else LOCK_EX
  match cfg.timeout with
  | none => base
  | some t => if 0 < t then base else base ||| LOCK_NB

/-- Outcome of the `fcntl.flock` call, supplied by the environment; the
bare `except:` at `timedflock2.py:185` makes the raising case carry only an
uninspected message. -/
inductive FlockResult where
  | success
  | raises (e : String)
deriving DecidableEq, Repr

/-- Observable trace of the Holder's lock attempt
(`timedflock2.py:171-195`): the flock operation word, the `setitimer`
calls in program order, the final `locked` flag, the lines written to
stdout, and whether the process parks in the `WAITING_RELEASE` loop. -/
structure AttemptTrace where
  lockOp : Nat
  timers : List TimerCall
  lockedFlag : Bool
  stdout : List String
  parks : Bool
deriving DecidableEq, Repr

/-- The Holder's `__main__` lock attempt (`timedflock2.py:171-195`):
compute the operation word, possibly arm the timer, run `flock` under
`try/except` setting `locked`, unconditionally `setitimer(ITIMER_REAL, 0)`,
then on success write the sentinel and park; on failure write nothing and
fall off the end of the `with` block. -/
def holderAttempt (cfg : Config) (fl : FlockResult) : AttemptTrace :=
  let lockedFlag := match fl with | .success => true | .raises _ => false
  { lockOp := holderLockOp cfg
    timers := (match armTimer cfg.timeout with
               | some c => [c]
               | none => []) ++ [⟨0, 0⟩]
    lockedFlag := lockedFlag
    stdout := if lockedFlag then [sentinel] else []
    parks := lockedFlag }

/-- The two terminal behaviours of the Liveness Watcher. -/
inductive WatcherOutcome where
  | orderlyRelease
  | selfTerminate
deriving DecidableEq, Repr

/-- `_watcher` (`timedflock2.py:139-146`): read stdin to EOF; the exact
token `'quit'` sets the exit event (orderly release); anything else —
including the empty read of a closed pipe — is treated as parent death and
the thread calls `os._exit(1)`. -/
def watcher (stdinData : String) : WatcherOutcome :=
  if stdinData = "quit" then .orderlyRelease else .selfTerminate

/-- Cleanup-relevant actions the Holder can perform on its way out. -/
inductive HolderAction where
  | flockUnlock
  | closeLockFile
  | exitProcess (code : Nat)
deriving DecidableEq, Repr

/-- What the Holder does after the watcher decides
(`timedflock2.py:139-146,191-195`): on orderly release the
`while not exit_event.wait(5)` loop ends, the `with open(...)` block closes
the lock file (releasing the advisory lock as a side effect of the close)
and the process exits 0 — there is no explicit `fcntl.flock(fd, LOCK_UN)`
call anywhere in this generation; on parent death `os._exit(1)` terminates
immediately with no cleanup at all. -/
def releasePath : WatcherOutcome → List HolderAction
  | .orderlyRelease => [HolderAction.closeLockFile, HolderAction.exitProcess 0]
  | .selfTerminate => [HolderAction.exitProcess 1]

theorem stepLock_locked (l : TimedFileLock) (e : Event) :
    (stepLock l e).locked = specHeldStep l.locked e := by
  cases e with
  | acquire env =>
      cases env with
      | spawnRaises e => rfl
      | readRaises e alive => rfl
      | readLine line =>
          by_cases h : line = sentinel <;>
            simp [stepLock, tryLock, tryLockBody, specHeldStep,
              TimedFileLock.locked, h]
  | release alive =>
      by_cases h : (l.subproc.isSome && alive) = true <;>
        simp [stepLock, TimedFileLock.unlock, specHeldStep,
          TimedFileLock.locked, h]

theorem runEvents_locked (es : List Event) :
    ∀ (l : TimedFileLock) (b : Bool), l.locked = b →
      (runEvents l es).locked = es.foldl specHeldStep b := by
  induction es with
  | nil => intro l b h; simpa [runEvents] using h
  | cons e es ih =>
      intro l b h
      simp only [runEvents, List.foldl_cons] at *
      exact ih (stepLock l e) (specHeldStep b e) (by rw [stepLock_locked, h])

/-- C1: over any sequence of acquire/release operations starting from a
fresh `TimedFileLock`, a HolderHandle (`_subproc` not `None`) is held iff
the most recent event is an acquisition whose handshake read exactly the
sentinel line `b'locked\n'` and no release happened since; and `locked()`
reports exactly that, being a pure function of the handle with no
filesystem or liveness query. -/
theorem locked_iff_sentinel_handshake (cfg : Config) (es : List Event) :
    (runEvents ⟨cfg, none⟩ es).locked = specHeld es :=
  runEvents_locked es ⟨cfg, none⟩ false rfl

/-- C2: `_try_lock` reads exactly one line whenever the spawn succeeded,
stores a HolderHandle iff that line is exactly the sentinel, and on an
exception during the handshake kills the child iff it is still alive; no
handle is ever retained on failure. -/
theorem tryLock_handshake_correct (env : HandshakeEnv) :
    ∃ p acts, tryLock env = .ok (p, acts)
      ∧ (p.isSome = true ↔ env = .readLine sentinel)
      ∧ acts.count ReqAction.readLine = (if env.spawnOk then 1 else 0)
      ∧ (∀ e alive, env = .readRaises e alive →
          ((ReqAction.kill ∈ acts) ↔ alive = true)) := by
  cases env with
  | spawnRaises e =>
      refine ⟨none, [ReqAction.spawn], rfl, by simp, rfl, ?_⟩
      intro e' a' h
      cases h
  | readRaises e alive =>
      cases alive with
      | true =>
          refine ⟨none, [ReqAction.spawn, ReqAction.readLine, ReqAction.kill],
            rfl, by simp, rfl, ?_⟩
          intro e' a' h
          injection h with h1 h2
          subst h2
          simp
      | false =>
          refine ⟨none, [ReqAction.spawn, ReqAction.readLine],
            rfl, by simp, rfl, ?_⟩
          intro e' a' h
          injection h with h1 h2
          subst h2
          simp
  | readLine line =>
      by_cases h : line = sentinel
      · subst h
        refine ⟨some (), [ReqAction.spawn, ReqAction.readLine],
          by simp [tryLock, tryLockBody], by simp, rfl, ?_⟩
        intro e' a' h
        cases h
      · refine ⟨none,
          [ReqAction.spawn, ReqAction.readLine, ReqAction.waitChild],
          by simp [tryLock, tryLockBody, h], by simp [h], rfl, ?_⟩
        intro e' a' hh
        cases hh

theorem tryLock_handshake_correct_witness :
    ∃ p acts, tryLock (HandshakeEnv.readRaises "boom" true) = .ok (p, acts)
      ∧ p.isSome = false ∧ ReqAction.kill ∈ acts := by
  obtain ⟨p, acts, h1, h2, _, h4⟩ :=
    tryLock_handshake_correct (HandshakeEnv.readRaises "boom" true)
  refine ⟨p, acts, h1, ?_, (h4 "boom" true rfl).mpr rfl⟩
  by_cases hp : p.isSome = true
  · exact absurd (h2.mp hp) (by simp)
  · simpa using hp

/-- C3: when a HolderHandle is held and the Holder is still alive,
`_unlock` performs `communicate(b'quit')`: it writes the release token to
the Holder's stdin, closes it, and waits for the Holder process to exit
before returning, clearing the handle. -/
theorem unlock_sends_quit_and_waits (cfg : Config) :
    TimedFileLock.unlock ⟨cfg, some ()⟩ true =
      .ok (⟨cfg, none⟩,
        [RelAction.writeStdin "quit", RelAction.closeStdin,
         RelAction.waitExit]) := by
  simp [TimedFileLock.unlock, communicate]

/-- C4 counterexample: on the concrete stdin content `'quit'` the watcher
does signal an orderly release, but the orderly-release path of the Holder
contains no explicit advisory-unlock action (`timedflock2.py` never calls
`fcntl.flock(fd, LOCK_UN)`): the claim that the Holder "releases the
advisory lock explicitly" is false on the code. -/
theorem orderly_release_no_explicit_unlock :
    watcher "quit" = WatcherOutcome.orderlyRelease
    ∧ HolderAction.flockUnlock ∉ releasePath (watcher "quit") := by
  refine ⟨rfl, ?_⟩
  intro h
  simp [watcher, releasePath] at h

/-- C4 (amended): the watcher signals an orderly release exactly on the
token `'quit'`; the orderly path closes the lock file (releasing the
advisory lock as a side effect of the close, with no explicit unlock call)
and exits 0, while end-of-stream without the token self-terminates
immediately via `os._exit(1)` with no cleanup; the two cases are never
conflated. -/
theorem watcher_release_modes (stdinData : String) :
    (watcher stdinData = WatcherOutcome.orderlyRelease ↔ stdinData = "quit")
    ∧ releasePath WatcherOutcome.orderlyRelease
        = [HolderAction.closeLockFile, HolderAction.exitProcess 0]
    ∧ releasePath WatcherOutcome.selfTerminate = [HolderAction.exitProcess 1]
    ∧ HolderAction.flockUnlock ∉ releasePath (watcher stdinData) := by
  by_cases h : stdinData = "quit" <;>
    simp [watcher, releasePath, h]

theorem watcher_release_modes_witness :
    (watcher "quit" = WatcherOutcome.orderlyRelease ↔
      ("quit" : String) = "quit")
    ∧ HolderAction.flockUnlock ∉ releasePath (watcher "quit") :=
  ⟨(watcher_release_modes "quit").1, (watcher_release_modes "quit").2.2.2⟩

/-- C5 counterexample: with `timeout = 5` the Holder arms
`setitimer(ITIMER_REAL, 5, 1)` — a timer with repeat interval 1 second,
which refires every second until disarmed, so it is not a one-shot timer
and can fire more than once while `flock` is pending. -/
theorem timer_not_one_shot :
    (holderAttempt ⟨"/tmp/f.lock", false, some 5⟩
        FlockResult.success).timers = [⟨5, 1⟩, ⟨0, 0⟩]
    ∧ ¬ TimerCall.oneShot ⟨5, 1⟩ := by
  constructor
  · simp [holderAttempt, armTimer]
  · intro h
    exact absurd h (by norm_num [TimerCall.oneShot])

/-- C5 (amended): the timer is armed iff the configured timeout is positive,
with initial delay equal to the timeout and repeat interval 1 second (so it
refires periodically, not at most once, until disarmed); and whatever the
outcome of the flock attempt, the last `setitimer` call of the attempt is
the unconditional disarm `setitimer(ITIMER_REAL, 0)`. -/
theorem timer_arm_disarm (cfg : Config) (fl : FlockResult) :
    (holderAttempt cfg fl).timers.getLast? = some ⟨0, 0⟩
    ∧ ((armTimer cfg.timeout).isSome = true ↔
        ∃ t, cfg.timeout = some t ∧ 0 < t)
    ∧ (∀ t, cfg.timeout = some t → 0 < t →
        (holderAttempt cfg fl).timers = [⟨t, 1⟩, ⟨0, 0⟩])
    ∧ (armTimer cfg.timeout = none →
        (holderAttempt cfg fl).timers = [⟨0, 0⟩]) := by
  rcases hto : cfg.timeout with - | t
  · refine ⟨by simp [holderAttempt, armTimer, hto], ?_, ?_, ?_⟩
    · simp [armTimer, hto]
    · intro t h; cases h
    · intro _; simp [holderAttempt, armTimer, hto]
  · by_cases hpos : 0 < t
    · refine ⟨?_, ?_, ?_, ?_⟩
      · simp [holderAttempt, armTimer, hto, hpos]
      · constructor
        · intro _
          exact ⟨t, rfl, hpos⟩
        · intro _
          simp [armTimer, hto, hpos]
      · intro t' h hpos'
        injection h with h'
        subst h'
        simp [holderAttempt, armTimer, hto, hpos]
      · intro h
        simp [armTimer, hto, hpos] at h
    · refine ⟨?_, ?_, ?_, ?_⟩
      · simp [holderAttempt, armTimer, hto, hpos]
      · simp only [armTimer, hto, hpos, if_neg, Option.isSome_none]
        constructor
        · intro h; cases h
        · rintro ⟨t', ht', hpos'⟩
          injection ht' with h'
          subst h'
          exact absurd hpos' hpos
      · intro t' h hpos'
        injection h with h'
        subst h'
        exact absurd hpos' hpos
      · intro _
        simp [holderAttempt, armTimer, hto, hpos]

theorem timer_arm_disarm_witness :
    (holderAttempt ⟨"/tmp/f.lock", true, some 2⟩
        FlockResult.success).timers = [⟨2, 1⟩, ⟨0, 0⟩] :=
  (timer_arm_disarm ⟨"/tmp/f.lock", true, some 2⟩
    FlockResult.success).2.2.1 2 rfl (by norm_num)

/-- C6: the Holder's lock operation word: `shared=True` requests `LOCK_SH`
and `shared=False` requests `LOCK_EX`; `timeout is None` issues a plain
blocking request (no timer, no `LOCK_NB`); `timeout == 0` or-s in
`LOCK_NB` (non-blocking, immediate failure = contention); `timeout > 0`
arms the timer and issues a blocking request (no `LOCK_NB`). -/
theorem lock_op_selection (cfg : Config) (fl : FlockResult) :
    (cfg.timeout = none →
      (holderAttempt cfg fl).lockOp = (if cfg.shared then LOCK_SH else LOCK_EX)
      ∧ (holderAttempt cfg fl).timers = [⟨0, 0⟩])
    ∧ (cfg.timeout = some 0 →
      (holderAttempt cfg fl).lockOp
          = (if cfg.shared then LOCK_SH else LOCK_EX) ||| LOCK_NB
      ∧ (holderAttempt cfg fl).timers = [⟨0, 0⟩])
    ∧ (∀ t, cfg.timeout = some t → 0 < t →
      (holderAttempt cfg fl).lockOp = (if cfg.shared then LOCK_SH else LOCK_EX)
      ∧ (holderAttempt cfg fl).timers.head? = some ⟨t, 1⟩) := by
  refine ⟨?_, ?_, ?_⟩
  · intro h
    simp [holderAttempt, holderLockOp, armTimer, h]
  · intro h
    constructor
    · simp [holderAttempt, holderLockOp, h]
    · simp [holderAttempt, armTimer, h]
  · intro t h hpos
    constructor
    · simp [holderAttempt, holderLockOp, h, hpos, not_lt.mpr (le_of_lt hpos)]
    · simp [holderAttempt, armTimer, h, hpos]

theorem lock_op_selection_witness :
    (holderAttempt ⟨"/tmp/f.lock", false, some 2⟩
        FlockResult.success).lockOp = LOCK_EX
    ∧ (holderAttempt ⟨"/tmp/f.lock", false, some 2⟩
        FlockResult.success).timers.head? = some ⟨2, 1⟩ := by
  have h := (lock_op_selection ⟨"/tmp/f.lock", false, some 2⟩
    FlockResult.success).2.2 2 rfl (by norm_num)
  simpa using h

/-- C7: `_unlock` is total and idempotent: it never raises, always leaves
`_subproc = None`, does nothing observable when no HolderHandle was held,
and a second call right after is a no-op. -/
theorem unlock_idempotent_total (l : TimedFileLock) (alive alive2 : Bool) :
    ∃ l1 acts, l.unlock alive = .ok (l1, acts)
      ∧ l1.subproc = none
      ∧ (l.subproc = none → acts = [])
      ∧ l1.unlock alive2 = .ok (l1, []) := by
  refine ⟨{ l with subproc := none },
    (if l.subproc.isSome && alive then communicate "quit" else []),
    ?_, rfl, ?_, ?_⟩
  · by_cases h : (l.subproc.isSome && alive) = true <;>
      simp [TimedFileLock.unlock, h]
  · intro h
    simp [h]
  · simp [TimedFileLock.unlock]

theorem unlock_idempotent_total_witness :
    ∃ l1 acts,
      TimedFileLock.unlock ⟨⟨"/tmp/f.lock", false, none⟩, none⟩ true
          = .ok (l1, acts)
      ∧ l1.subproc = none ∧ acts = []
      ∧ l1.unlock false = .ok (l1, []) := by
  obtain ⟨l1, acts, h1, h2, h3, h4⟩ :=
    unlock_idempotent_total ⟨⟨"/tmp/f.lock", false, none⟩, none⟩ true false
  exact ⟨l1, acts, h1, h2, h3 rfl, h4⟩

/-- C8: whenever `fcntl.flock` raises — whatever the cause carried by the
exception — the Holder writes nothing to stdout and does not park; the
trace is identical for every failure cause, so no failure detail reaches
the Requester; on success the single sentinel line is written instead. -/
theorem holder_failure_silent (cfg : Config) (e1 e2 : String) :
    (holderAttempt cfg (FlockResult.raises e1)).stdout = []
    ∧ (holderAttempt cfg (FlockResult.raises e1)).parks = false
    ∧ holderAttempt cfg (FlockResult.raises e1)
        = holderAttempt cfg (FlockResult.raises e2)
    ∧ (holderAttempt cfg FlockResult.success).stdout = [sentinel] :=
  ⟨rfl, rfl, rfl, rfl⟩

theorem isAbsolute_append (cwd s : String) (h : isAbsolute cwd = true) :
    isAbsolute (cwd ++ s) = true := by
  unfold isAbsolute at *
  rw [String.data_append]
  rcases hd : cwd.data with - | ⟨c, rest⟩
  · rw [hd] at h
    exact absurd h (by simp)
  · rw [hd] at h
    simpa using h

theorem abspath_absolute (cwd p : String) (h : isAbsolute cwd = true) :
    isAbsolute (os_path_abspath cwd p) = true := by
  unfold os_path_abspath
  by_cases hp : isAbsolute p = true
  · simp [hp]
  · simp only [hp, Bool.false_eq_true, if_false]
    exact isAbsolute_append (cwd ++ "/") p (isAbsolute_append cwd "/" h)

/-- C9: the constructor raises `ValueError` exactly when a non-`None`
timeout is negative; otherwise it succeeds, and the stored immutable
configuration has an absolute lockfile path (given an absolute working
directory), `shared` coerced through `bool(...)`, and a timeout that is
`None` or non-negative. -/
theorem init_validates_timeout (cwd lockfile : String) (shared : PyVal)
    (timeout : Option ℚ) (hcwd : isAbsolute cwd = true) :
    (TimedFileLock.init cwd lockfile shared timeout
        = .error PyError.valueError ↔ ∃ t, timeout = some t ∧ t < 0)
    ∧ (∀ cfg, TimedFileLock.init cwd lockfile shared timeout = .ok cfg →
        isAbsolute cfg.lockfile = true
        ∧ cfg.shared = shared.truthy
        ∧ cfg.timeout = timeout
        ∧ ∀ t, cfg.timeout = some t → 0 ≤ t)
    ∧ ((¬ ∃ t, timeout = some t ∧ t < 0) →
        ∃ cfg, TimedFileLock.init cwd lockfile shared timeout = .ok cfg) := by
  rcases timeout with - | t
  · refine ⟨?_, ?_, ?_⟩
    · simp [TimedFileLock.init]
    · intro cfg hok
      simp only [TimedFileLock.init, Except.ok.injEq] at hok
      subst hok
      refine ⟨abspath_absolute cwd lockfile hcwd, rfl, rfl, ?_⟩
      intro t h
      cases h
    · intro _
      exact ⟨_, rfl⟩
  · by_cases hneg : t < 0
    · have hinit : TimedFileLock.init cwd lockfile shared (some t)
          = .error PyError.valueError := by
        simp [TimedFileLock.init, hneg]
      refine ⟨?_, ?_, ?_⟩
      · rw [hinit]
        exact ⟨fun _ => ⟨t, rfl, hneg⟩, fun _ => rfl⟩
      · intro cfg hok
        rw [hinit] at hok
        cases hok
      · intro hno
        exact absurd ⟨t, rfl, hneg⟩ hno
    · have hinit : TimedFileLock.init cwd lockfile shared (some t)
          = .ok { lockfile := os_path_abspath cwd lockfile,
                  shared := shared.truthy, timeout := some t } := by
        simp [TimedFileLock.init, hneg]
      refine ⟨?_, ?_, ?_⟩
      · rw [hinit]
        constructor
        · intro h
          cases h
        · rintro ⟨t', ht', hneg'⟩
          injection ht' with h'
          subst h'
          exact absurd hneg' hneg
      · intro cfg hok
        rw [hinit] at hok
        injection hok with h'
        subst h'
        refine ⟨abspath_absolute cwd lockfile hcwd, rfl, rfl, ?_⟩
        intro t' h'
        injection h' with h''
        subst h''
        exact le_of_not_lt hneg
      · intro _
        exact ⟨_, hinit⟩

theorem init_validates_timeout_witness :
    isAbsolute "/home/user" = true
    ∧ ∃ cfg, TimedFileLock.init "/home/user" "a.lock" (PyVal.pyint 3)
          (some 2) = .ok cfg
        ∧ isAbsolute cfg.lockfile = true
        ∧ cfg.shared = true
        ∧ cfg.timeout = some 2 := by
  have hcwd : isAbsolute "/home/user" = true := by decide
  have h := init_validates_timeout "/home/user" "a.lock" (PyVal.pyint 3)
    (some 2) hcwd
  obtain ⟨cfg, hok⟩ := h.2.2 (by
    rintro ⟨t, ht, hlt⟩
    injection ht with h'
    subst h'
    exact absurd hlt (by norm_num))
  obtain ⟨habs, hsh, hto, -⟩ := h.2.1 cfg hok
  exact ⟨hcwd, cfg, hok, habs, by simp [hsh, PyVal.truthy], hto⟩

/-- C10: `__enter__` never raises and returns the very object it updated,
whatever the spawn/handshake environment did: every exception inside the
acquisition path is swallowed by the bare `except:` of `_try_lock`, so
acquisition failure is observable only through `locked()` on the returned
object, which is true exactly when the handshake read the sentinel. -/
theorem enter_never_raises (l : TimedFileLock) (env : HandshakeEnv) :
    ∃ l2, l.enter env = .ok (l2, l2)
      ∧ l2.config = l.config
      ∧ (l2.locked = true ↔ env = .readLine sentinel) := by
  cases env with
  | spawnRaises e =>
      exact ⟨{ l with subproc := none }, rfl, rfl,
        by simp [TimedFileLock.locked]⟩
  | readRaises e alive =>
      exact ⟨{ l with subproc := none }, rfl, rfl,
        by simp [TimedFileLock.locked]⟩
  | readLine line =>
      by_cases h : line = sentinel
      · subst h
        refine ⟨{ l with subproc := some () }, ?_, rfl,
          by simp [TimedFileLock.locked]⟩
        simp [TimedFileLock.enter, tryLock, tryLockBody]
      · refine ⟨{ l with subproc := none }, ?_, rfl,
          by simp [TimedFileLock.locked, h]⟩
        simp [TimedFileLock.enter, tryLock, tryLockBody, h]
